import Mathlib

/-!
Shallow embedding of the department-scoped authorization and attendance
reconciliation core of the `fre-form` backend.

The embedding translates the Python source files
`app/models/{user,enums,attendance,student,department}.py`,
`app/schemas/attendance.py`, `app/schemas/student.py`,
`app/core/dependencies.py`, `app/api/v1/endpoints/attendance.py` and
`app/api/v1/endpoints/students.py` into pure Lean functions.  The relational
store is an explicit `DB` value threaded through each endpoint; a request
handler is a function `… → DB → Except ApiError (result × DB)`.  Raising
`HTTPException`, a Python `AttributeError` (reading an attribute a pydantic
model does not define) and SQLAlchemy's `MultipleResultsFound` are the error
outcomes; a failed request leaves the store untouched because the session is
rolled back without a commit.

Dates are abstract identifiers (`Nat`): the code only ever compares them for
equality.  Response-body assembly (pydantic response models) is elided: the
claims under study are about which rows are selected and which rows are
written, both of which are decided before the response object is built.
-/

namespace FreForm

/-- `UserRole` from `app/models/user.py`. -/
inductive UserRole where
  | SUPER_ADMIN
  | ADMIN
  | MANAGER
deriving DecidableEq, Repr

/-- `StudentCategory` from `app/models/enums.py`. -/
inductive StudentCategory where
  | CHILDREN
  | ADOLESCENT
  | YOUTH
  | ADULT
deriving DecidableEq, Repr

/-- `ProgramType` from `app/models/attendance.py`. -/
inductive ProgramType where
  | REGULAR
  | EVENT
deriving DecidableEq, Repr

/-- `AttendanceStatus` from `app/models/attendance.py`. -/
inductive AttendanceStatus where
  | PRESENT
  | ABSENT
  | EXCUSED
deriving DecidableEq, Repr

/-- `Department` row (`app/models/department.py`); only the columns the
attendance/authorization logic reads are kept. -/
structure Department where
  id : Nat
  name : String
deriving DecidableEq, Repr

/-- `User` row (`app/models/user.py`).  `departments` is the loaded
many-to-many relationship (via the `user_departments` link table) that
`check_department_permission` reads directly off the object. -/
structure User where
  id : Nat
  role : UserRole
  is_active : Bool
  departments : List Department
deriving DecidableEq, Repr

/-- One row of the `user_departments` link table (`app/models/user.py`),
queried by `get_user_departments` in `app/core/dependencies.py`. -/
structure UserDepartment where
  user_id : Nat
  department_id : Nat
deriving DecidableEq, Repr

/-- `Student` core row (`app/models/student.py`); the profile columns
(name, gender, dob, …) are never read by the logic under study and are
elided. -/
structure Student where
  id : Nat
  department_id : Nat
  category : StudentCategory
deriving DecidableEq, Repr

/-- `Program` row (`app/models/attendance.py`). -/
structure Program where
  id : Nat
  name : String
  department_id : Nat
  type : ProgramType
deriving DecidableEq, Repr

/-- `AttendanceSession` row (`app/models/attendance.py`). -/
structure AttendanceSession where
  id : Nat
  date : Nat
  department_id : Nat
  program_id : Option Nat
  target_category : StudentCategory
  type : Option ProgramType
  created_by_id : Option Nat
deriving DecidableEq, Repr

/-- `AttendanceRecord` row (`app/models/attendance.py`). -/
structure AttendanceRecord where
  id : Nat
  session_id : Nat
  student_id : Nat
  status : AttendanceStatus
  remarks : Option String
deriving DecidableEq, Repr

/-- `StudentAddress` row (`app/models/student.py`), keyed by `student_id`;
address payload columns elided. -/
structure StudentAddress where
  student_id : Nat
deriving DecidableEq, Repr

/-- One optional profile sub-record row (`StudentFamily` / `StudentEducation` /
`StudentSpirituality` / `StudentHealth` in `app/models/student.py`), keyed by
`student_id`; payload columns elided. -/
structure StudentSection where
  student_id : Nat
deriving DecidableEq, Repr

/-- The relational store.  `next_session_id`, `next_record_id` and
`next_student_id` model the autoincrement primary-key counters. -/
structure DB where
  departments : List Department := []
  students : List Student := []
  programs : List Program := []
  sessions : List AttendanceSession := []
  records : List AttendanceRecord := []
  user_departments : List UserDepartment := []
  student_addresses : List StudentAddress := []
  student_families : List StudentSection := []
  student_educations : List StudentSection := []
  student_spiritualities : List StudentSection := []
  student_healths : List StudentSection := []
  next_session_id : Nat := 1
  next_record_id : Nat := 1
  next_student_id : Nat := 1
deriving DecidableEq, Repr

/-- The failure outcomes a request handler can produce. -/
inductive ApiError where
  /-- `fastapi.HTTPException(status_code, detail)`. -/
  | http (code : Nat) (detail : String)
  /-- Python `AttributeError` from reading attribute `attr` off an object
  that does not define it. -/
  | attributeError (attr : String)
  /-- `sqlalchemy` `MultipleResultsFound`, raised by `scalar_one_or_none`
  when the query returns more than one row. -/
  | multipleResultsFound
deriving DecidableEq, Repr

/-- `Result.scalar_one_or_none()`: `none` for zero rows, the row for exactly
one, `MultipleResultsFound` for more. -/
def scalar_one_or_none {α : Type} (rows : List α) : Except ApiError (Option α) :=
  match rows with
  | [] => .ok none
  | [x] => .ok (some x)
  | _ => .error .multipleResultsFound

/-- `check_department_permission` (`endpoints/attendance.py`, lines 34-51).
Returns `True` for a SUPER_ADMIN, falls through (returning `None`, modelled
as `false`) when `department_id` is among the user's loaded departments, and
raises 403 otherwise.  Callers ignore the success value. -/
def check_department_permission (user : User) (department_id : Nat) :
    Except ApiError Bool :=
  if user.role = UserRole.SUPER_ADMIN then
    .ok true
  else
    let user_dept_ids := user.departments.map Department.id
    if department_id ∈ user_dept_ids then
      .ok false
    else
      .error (.http 403 "You do not have permission to manage this department.")

/-- `get_user_departments` (`core/dependencies.py`, lines 101-110): the
department ids linked to `user_id` in the `user_departments` table. -/
def get_user_departments (user_id : Nat) (db : DB) : List Nat :=
  (db.user_departments.filter (fun ud => ud.user_id == user_id)).map
    UserDepartment.department_id

/-- A dynamically typed Python argument: the value bound to a parameter is
either the `User` object the annotation promises or, at the buggy call site
in `endpoints/students.py`, the integer `current_user.id`. -/
inductive PyArg where
  | user (u : User)
  | intVal (n : Nat)
deriving DecidableEq, Repr

/-- Attribute access `arg.role`; an `int` has no such attribute. -/
def PyArg.role : PyArg → Except ApiError UserRole
  | .user u => .ok u.role
  | .intVal _ => .error (.attributeError "role")

/-- Attribute access `arg.id`; an `int` has no such attribute. -/
def PyArg.uid : PyArg → Except ApiError Nat
  | .user u => .ok u.id
  | .intVal _ => .error (.attributeError "id")

/-- `check_admin_department_access` (`core/dependencies.py`, lines 113-126).
The `user` parameter is annotated `User`, but Python does not enforce the
annotation, so the argument is modelled dynamically. -/
def check_admin_department_access (user : PyArg) (department_id : Nat)
    (db : DB) : Except ApiError Bool :=
  match user.role with
  | .error e => .error e
  | .ok role =>
    if role = UserRole.SUPER_ADMIN then
      .ok true
    else if role ≠ UserRole.ADMIN ∧ role ≠ UserRole.MANAGER then
      .ok false
    else
      match user.uid with
      | .error e => .error e
      | .ok uid => .ok ((get_user_departments uid db).contains department_id)

/-- `require_manager_department_access` (`core/dependencies.py`,
lines 172-202).  `department_id` is resolved by FastAPI as a query
parameter. -/
def require_manager_department_access (department_id : Nat)
    (current_user : User) (db : DB) : Except ApiError Unit :=
  if current_user.role = UserRole.SUPER_ADMIN ∨
      current_user.role = UserRole.ADMIN then
    .ok ()
  else if current_user.role ≠ UserRole.MANAGER then
    .error (.http 403 "Not enough permissions. Manager access required.")
  else
    match check_admin_department_access (.user current_user) department_id db with
    | .error e => .error e
    | .ok has_access =>
      if ¬ has_access then
        .error (.http 403 "Manager does not have access to department")
      else
        .ok ()

/-! ## Request schemas (`app/schemas/attendance.py`)

The schema module defines each class twice; Python keeps the second
definition.  The effective `AttendanceRecordInput` has fields
`student_id / present / notes` (lines 75-78) and the effective
`AttendanceBatchCreate` has fields `date / department_id / category / type /
records` (lines 81-86) — neither a `status` nor a `program_id` field exists,
although the batch endpoint reads both. -/

/-- `AttendanceRecordCreate` (`schemas/attendance.py`, lines 60-63). -/
structure AttendanceRecordCreate where
  student_id : Nat
  present : Option Bool := some true
  notes : Option String := none
deriving DecidableEq, Repr

/-- `AttendanceSessionCreate` (`schemas/attendance.py`, lines 66-71).  The
`category` field is a string in the schema; the endpoint normalizes it to the
canonical enum value, so it is modelled as the enum directly. -/
structure AttendanceSessionCreate where
  date : Nat
  department_id : Nat
  category : StudentCategory
  type : ProgramType
  records : Option (List AttendanceRecordCreate) := none
deriving DecidableEq, Repr

/-- `AttendanceRecordInput` (`schemas/attendance.py`, lines 75-78). -/
structure AttendanceRecordInput where
  student_id : Nat
  present : Bool := false
  notes : Option String := none
deriving DecidableEq, Repr

/-- `AttendanceBatchCreate` (`schemas/attendance.py`, lines 81-86). -/
structure AttendanceBatchCreate where
  date : Nat
  department_id : Nat
  category : StudentCategory
  type : ProgramType := ProgramType.REGULAR
  records : List AttendanceRecordInput
deriving DecidableEq, Repr

/-- The attribute access `data.program_id` performed by
`create_attendance_batch` (`endpoints/attendance.py`, line 141):
`AttendanceBatchCreate` declares no `program_id` field, so the access raises
`AttributeError` on every call. -/
def AttendanceBatchCreate.program_id_attr (_ : AttendanceBatchCreate) :
    Except ApiError Nat :=
  .error (.attributeError "program_id")

/-- The attribute access `r.status` performed in the record loop of
`create_attendance_batch` (`endpoints/attendance.py`, line 184):
`AttendanceRecordInput` declares no `status` field, so the access raises
`AttributeError`. -/
def AttendanceRecordInput.status_attr (_ : AttendanceRecordInput) :
    Except ApiError AttendanceStatus :=
  .error (.attributeError "status")

/-- Python truthiness of an optional boolean (`if record.present:` where
`present : Optional[bool]`): `None` is falsy. -/
def truthy : Option Bool → Bool
  | some b => b
  | none => false

/-! ## Attendance endpoints (`app/api/v1/endpoints/attendance.py`) -/

/-- The record list built by `create_attendance_session`
(`endpoints/attendance.py`, lines 89-114): one record per student fetched for
`(department_id, category)`, using the caller-supplied override when the map
has one (later list entries overwrite earlier ones for the same student, as
in the Python dict build) and `ABSENT` otherwise.  `nid` is the autoincrement
counter handing out record ids. -/
def buildManualRecords (sessionId : Nat) (provided : List AttendanceRecordCreate) :
    Nat → List Student → List AttendanceRecord
  | _, [] => []
  | nid, s :: rest =>
    let rec0 : AttendanceRecord :=
      match provided.reverse.find? (fun r => r.student_id == s.id) with
      | some p =>
        { id := nid, session_id := sessionId, student_id := s.id,
          status := if truthy p.present then .PRESENT else .ABSENT,
          remarks := p.notes }
      | none =>
        { id := nid, session_id := sessionId, student_id := s.id,
          status := .ABSENT, remarks := none }
    rec0 :: buildManualRecords sessionId provided (nid + 1) rest

/-- `create_attendance_session` (`endpoints/attendance.py`, lines 59-126).
Returns the created session together with its created records list and the
updated store. -/
def create_attendance_session (current_user : User)
    (session_data : AttendanceSessionCreate) (db : DB) :
    Except ApiError ((AttendanceSession × List AttendanceRecord) × DB) :=
  match check_department_permission current_user session_data.department_id with
  | .error e => .error e
  | .ok _ =>
    match db.departments.find? (fun d => d.id == session_data.department_id) with
    | none => .error (.http 404 "Department not found")
    | some _ =>
      let new_session : AttendanceSession :=
        { id := db.next_session_id, date := session_data.date,
          department_id := session_data.department_id, program_id := none,
          target_category := session_data.category,
          type := some session_data.type,
          created_by_id := some current_user.id }
      let provided := session_data.records.getD []
      let students := db.students.filter (fun s =>
        s.department_id == session_data.department_id &&
        s.category == session_data.category)
      let recs := buildManualRecords new_session.id provided db.next_record_id
        students
      .ok ((new_session, recs),
        { db with sessions := db.sessions ++ [new_session],
                  records := db.records ++ recs,
                  next_session_id := db.next_session_id + 1,
                  next_record_id := db.next_record_id + recs.length })

/-- The bulk record build of `create_attendance_batch`
(`endpoints/attendance.py`, lines 177-189): one record per caller-supplied
entry, reading the (non-existent) `status` attribute of each entry. -/
def buildBatchRecords (sessionId : Nat) :
    Nat → List AttendanceRecordInput → Except ApiError (List AttendanceRecord)
  | _, [] => .ok []
  | nid, r :: rest =>
    match r.status_attr with
    | .error e => .error e
    | .ok st =>
      match buildBatchRecords sessionId (nid + 1) rest with
      | .error e => .error e
      | .ok tl =>
        .ok ({ id := nid, session_id := sessionId, student_id := r.student_id,
               status := st, remarks := r.notes } :: tl)

/-- `create_attendance_batch` (`endpoints/attendance.py`, lines 131-197).
Returns the number of created records (`records_count`) and the updated
store. -/
def create_attendance_batch (current_user : User) (data : AttendanceBatchCreate)
    (db : DB) : Except ApiError (Nat × DB) :=
  match data.program_id_attr with
  | .error e => .error e
  | .ok pid =>
    match db.programs.find? (fun p => p.id == pid) with
    | none => .error (.http 404 "Program not found. Please select a valid program.")
    | some program =>
      match check_department_permission current_user program.department_id with
      | .error e => .error e
      | .ok _ =>
        match scalar_one_or_none (db.sessions.filter (fun s =>
            s.program_id == some program.id && s.date == data.date &&
            s.target_category == data.category)) with
        | .error e => .error e
        | .ok (some _) =>
          .error (.http 400
            "Attendance has already been recorded for this category in this program today.")
        | .ok none =>
          let new_session : AttendanceSession :=
            { id := db.next_session_id, date := data.date,
              department_id := program.department_id,
              program_id := some program.id,
              target_category := data.category, type := some program.type,
              created_by_id := some current_user.id }
          match buildBatchRecords new_session.id db.next_record_id data.records with
          | .error e => .error e
          | .ok recs =>
            .ok (recs.length,
              { db with sessions := db.sessions ++ [new_session],
                        records := db.records ++ recs,
                        next_session_id := db.next_session_id + 1,
                        next_record_id := db.next_record_id + recs.length })

/-- `eligible_students` (`endpoints/attendance.py`, lines 204-224): a plain
select over `(department_id, category)`; `current_user` is injected by the
`get_current_active_user` dependency but never consulted. -/
def eligible_students (department_id : Nat) (category : StudentCategory)
    (_current_user : User) (db : DB) : List Student :=
  db.students.filter (fun s =>
    s.department_id == department_id && s.category == category)

/-- `list_attendance_sessions` (`endpoints/attendance.py`, lines 229-260):
the three optional query filters are applied in order; `current_user` is
injected but never consulted.  Returns the selected session rows. -/
def list_attendance_sessions (department_id : Option Nat)
    (category : Option StudentCategory) (type : Option ProgramType)
    (_current_user : User) (db : DB) : List AttendanceSession :=
  let q1 := match department_id with
    | some d => db.sessions.filter (fun s => s.department_id == d)
    | none => db.sessions
  let q2 := match category with
    | some c => q1.filter (fun s => s.target_category == c)
    | none => q1
  match type with
  | some t => q2.filter (fun s => s.type == some t)
  | none => q2

/-- `add_record` (`endpoints/attendance.py`, lines 288-314).  The
`require_manager_department_access` dependency resolves `department_id` from
the query string.  Inserts unconditionally. -/
def add_record (current_user : User) (department_id : Nat) (session_id : Nat)
    (record : AttendanceRecordCreate) (db : DB) :
    Except ApiError (AttendanceRecord × DB) :=
  match require_manager_department_access department_id current_user db with
  | .error e => .error e
  | .ok _ =>
    match scalar_one_or_none (db.sessions.filter (fun s => s.id == session_id)) with
    | .error e => .error e
    | .ok none => .error (.http 404 "Session not found")
    | .ok (some _) =>
      let status_val := if truthy record.present then
        AttendanceStatus.PRESENT else AttendanceStatus.ABSENT
      let new : AttendanceRecord :=
        { id := db.next_record_id, session_id := session_id,
          student_id := record.student_id, status := status_val,
          remarks := record.notes }
      .ok (new, { db with records := db.records ++ [new],
                          next_record_id := db.next_record_id + 1 })

/-- The `where` clause of the record lookup in `collect_attendance`
(`endpoints/attendance.py`, lines 338-343): the row belongs to
`(session_id, student_id)`. -/
def pairMatches (session_id student_id : Nat) (r : AttendanceRecord) : Bool :=
  r.session_id == session_id && r.student_id == student_id

/-- The in-place overwrite `existing.status = …; existing.remarks = …` of
`collect_attendance` (`endpoints/attendance.py`, lines 346-348), applied to
the stored rows: the row whose primary key is `exid` gets the new status and
remarks, every other row is unchanged. -/
def updRec (exid : Nat) (v : AttendanceStatus) (n : Option String)
    (r : AttendanceRecord) : AttendanceRecord :=
  if r.id == exid then { r with status := v, remarks := n } else r

/-- `collect_attendance` (`endpoints/attendance.py`, lines 319-363): upsert of
the record for `(session_id, record.student_id)` — overwrite status and
remarks in place when a row exists, insert otherwise. -/
def collect_attendance (current_user : User) (department_id : Nat)
    (session_id : Nat) (record : AttendanceRecordCreate) (db : DB) :
    Except ApiError (AttendanceRecord × DB) :=
  match require_manager_department_access department_id current_user db with
  | .error e => .error e
  | .ok _ =>
    match scalar_one_or_none (db.sessions.filter (fun s => s.id == session_id)) with
    | .error e => .error e
    | .ok none => .error (.http 404 "Session not found")
    | .ok (some _) =>
      let status_val := if truthy record.present then
        AttendanceStatus.PRESENT else AttendanceStatus.ABSENT
      match scalar_one_or_none (db.records.filter
          (pairMatches session_id record.student_id)) with
      | .error e => .error e
      | .ok (some ex) =>
        let updated : AttendanceRecord :=
          { ex with status := status_val, remarks := record.notes }
        .ok (updated,
          { db with records :=
              db.records.map (updRec ex.id status_val record.notes) })
      | .ok none =>
        let new : AttendanceRecord :=
          { id := db.next_record_id, session_id := session_id,
            student_id := record.student_id, status := status_val,
            remarks := record.notes }
        .ok (new, { db with records := db.records ++ [new],
                            next_record_id := db.next_record_id + 1 })

/-! ## Student creation (`app/api/v1/endpoints/students.py`) -/

/-- The per-category detail block of a create-student request (`ChildInput` /
`AdultInput` / `YouthInput` / `AdolescentInput` in `schemas/student.py`): the
endpoint only inspects which of the four optional sub-record payloads are
supplied (`getattr(details, "family", None)` and so on), so each payload is
modelled as a presence flag; its columns are elided. -/
structure CategoryDetailInput where
  family : Bool := false
  education : Bool := false
  spirituality : Bool := false
  health : Bool := false
deriving DecidableEq, Repr

/-- `category_details` of `StudentCreate` (`schemas/student.py`): one optional
block per category. -/
structure CategoryDetailsCreate where
  child : Option CategoryDetailInput := none
  adult : Option CategoryDetailInput := none
  youth : Option CategoryDetailInput := none
  adolescent : Option CategoryDetailInput := none
deriving DecidableEq, Repr

/-- `StudentCreate` (`schemas/student.py`); the required address payload and
the core profile columns are elided — creation always writes the address
row. -/
structure StudentCreate where
  full_name : String
  department_id : Nat
  category : StudentCategory
  category_details : CategoryDetailsCreate := {}
deriving DecidableEq, Repr

/-- Steps 2-6 of `create_student` (`endpoints/students.py`, lines 53-128):
validate the department, insert the core row and the address row, then any
supplied sub-records, all in one transaction. -/
def create_student_rows (_current_user : User) (student_in : StudentCreate)
    (db : DB) : Except ApiError (Nat × DB) :=
  match db.departments.find? (fun d => d.id == student_in.department_id) with
  | none => .error (.http 404 "Department not found")
  | some _ =>
    let sid := db.next_student_id
    let details : Option CategoryDetailInput :=
      match student_in.category with
      | .CHILDREN => student_in.category_details.child
      | .ADULT => student_in.category_details.adult
      | .YOUTH => student_in.category_details.youth
      | .ADOLESCENT => student_in.category_details.adolescent
    let d := details.getD {}
    .ok (sid,
      { db with
        students := db.students ++
          [{ id := sid, department_id := student_in.department_id,
             category := student_in.category }],
        student_addresses := db.student_addresses ++ [{ student_id := sid }],
        student_families :=
          if d.family then db.student_families ++ [{ student_id := sid }]
          else db.student_families,
        student_educations :=
          if d.education then db.student_educations ++ [{ student_id := sid }]
          else db.student_educations,
        student_spiritualities :=
          if d.spirituality then
            db.student_spiritualities ++ [{ student_id := sid }]
          else db.student_spiritualities,
        student_healths :=
          if d.health then db.student_healths ++ [{ student_id := sid }]
          else db.student_healths,
        next_student_id := sid + 1 })

/-- `create_student` (`endpoints/students.py`, lines 31-128).  The permission
check at lines 43-51 passes `current_user.id` — an `int` — as the first
argument of `check_admin_department_access`, whose annotation promises a
`User` object. -/
def create_student (current_user : User) (student_in : StudentCreate)
    (db : DB) : Except ApiError (Nat × DB) :=
  if current_user.role ≠ UserRole.SUPER_ADMIN then
    match check_admin_department_access (.intVal current_user.id)
        student_in.department_id db with
    | .error e => .error e
    | .ok has_access =>
      if ¬ has_access then
        .error (.http 403 "You do not have access to department")
      else
        create_student_rows current_user student_in db
  else
    create_student_rows current_user student_in db

/-! ## Theorems -/

/-- C1: for every department id and every user whose role is SUPER_ADMIN,
both department gates — `check_department_permission` and
`check_admin_department_access` — allow access, regardless of the user's
department assignments (loaded relationship and link table alike). -/
theorem superadmin_always_allowed (u : User) (d : Nat) (db : DB)
    (h : u.role = UserRole.SUPER_ADMIN) :
    check_department_permission u d = .ok true ∧
    check_admin_department_access (.user u) d db = .ok true := by
  constructor
  · simp [check_department_permission, h]
  · simp [check_admin_department_access, PyArg.role, h]

/-- Witness for C1: a concrete SUPER_ADMIN with no assignments is allowed
for department 7. -/
theorem superadmin_always_allowed_witness :
    (User.mk 1 .SUPER_ADMIN true []).role = UserRole.SUPER_ADMIN ∧
    (check_department_permission (User.mk 1 .SUPER_ADMIN true []) 7 = .ok true ∧
     check_admin_department_access (.user (User.mk 1 .SUPER_ADMIN true [])) 7 {}
       = .ok true) :=
  ⟨rfl, superadmin_always_allowed (User.mk 1 .SUPER_ADMIN true []) 7 {} rfl⟩

/-- C2: for every non-SUPER_ADMIN user and every department id, each gate
succeeds exactly when the department is in the user's assigned set
(`check_department_permission` reads the loaded relationship and raises 403
Forbidden otherwise; `check_admin_department_access` reads the link table and
reports the membership bit). -/
theorem non_superadmin_allowed_iff_assigned (u : User) (d : Nat) (db : DB)
    (h : u.role ≠ UserRole.SUPER_ADMIN) :
    ((check_department_permission u d).isOk = true ↔
      d ∈ u.departments.map Department.id) ∧
    (d ∉ u.departments.map Department.id →
      check_department_permission u d =
        .error (.http 403 "You do not have permission to manage this department.")) ∧
    check_admin_department_access (.user u) d db =
      .ok ((get_user_departments u.id db).contains d) ∧
    (check_admin_department_access (.user u) d db = .ok true ↔
      d ∈ get_user_departments u.id db) := by
  have h3 : check_admin_department_access (.user u) d db =
      .ok ((get_user_departments u.id db).contains d) := by
    cases hr : u.role with
    | SUPER_ADMIN => exact absurd hr h
    | ADMIN => simp [check_admin_department_access, PyArg.role, PyArg.uid, hr]
    | MANAGER => simp [check_admin_department_access, PyArg.role, PyArg.uid, hr]
  refine ⟨?_, ?_, h3, ?_⟩
  · by_cases hm : d ∈ u.departments.map Department.id <;>
      simp [check_department_permission, h, hm, Except.isOk, Except.toBool]
  · intro hm
    simp [check_department_permission, h, hm]
  · rw [h3]
    simp [List.contains]

/-- Witness for C2: a concrete ADMIN assigned to department 5 (both on the
loaded relationship and in the link table) at department 5. -/
theorem non_superadmin_allowed_iff_assigned_witness :
    (User.mk 2 .ADMIN true [Department.mk 5 "D5"]).role ≠ UserRole.SUPER_ADMIN ∧
    (((check_department_permission (User.mk 2 .ADMIN true [Department.mk 5 "D5"]) 5).isOk
        = true ↔ 5 ∈ [Department.mk 5 "D5"].map Department.id) ∧
     (5 ∉ [Department.mk 5 "D5"].map Department.id →
       check_department_permission (User.mk 2 .ADMIN true [Department.mk 5 "D5"]) 5 =
         .error (.http 403 "You do not have permission to manage this department.")) ∧
     check_admin_department_access (.user (User.mk 2 .ADMIN true [Department.mk 5 "D5"]))
         5 { user_departments := [UserDepartment.mk 2 5] } =
       .ok ((get_user_departments 2 { user_departments := [UserDepartment.mk 2 5] }).contains 5) ∧
     (check_admin_department_access (.user (User.mk 2 .ADMIN true [Department.mk 5 "D5"]))
         5 { user_departments := [UserDepartment.mk 2 5] } = .ok true ↔
       5 ∈ get_user_departments 2 { user_departments := [UserDepartment.mk 2 5] })) :=
  ⟨by decide,
   non_superadmin_allowed_iff_assigned (User.mk 2 .ADMIN true [Department.mk 5 "D5"]) 5
     { user_departments := [UserDepartment.mk 2 5] } (by decide)⟩

/-- C4 (code bug): every call of `create_attendance_batch` fails with
`AttributeError` while reading `data.program_id`, because the effective
`AttendanceBatchCreate` schema defines no `program_id` field; the duplicate
check is unreachable, so a second identical call is never answered with the
duplicate/Conflict error (storage is left untouched, as any failed request
rolls back). -/
theorem batch_create_always_attribute_error (u : User)
    (data : AttendanceBatchCreate) (db : DB) :
    create_attendance_batch u data db = .error (.attributeError "program_id") :=
  rfl

/-- C8 (code bug): `create_attendance_batch` never inserts the caller-supplied
records: the endpoint crashes reading `data.program_id`, and even the record
loop itself fails on any non-empty list because `AttendanceRecordInput`
defines no `status` attribute (read at `endpoints/attendance.py`, line
184). -/
theorem batch_records_never_inserted (u : User) (data : AttendanceBatchCreate)
    (db : DB) (sid nid : Nat) (r : AttendanceRecordInput)
    (rs : List AttendanceRecordInput) :
    buildBatchRecords sid nid (r :: rs) = .error (.attributeError "status") ∧
    (create_attendance_batch u data db).isOk = false :=
  ⟨rfl, rfl⟩

/-- C9 (code bug): for every caller whose role is not SUPER_ADMIN,
`create_student` fails with `AttributeError` — regardless of the caller's
department assignments — because the endpoint passes `current_user.id` (an
`int`) where `check_admin_department_access` expects the `User` object, and
the gate immediately reads `.role` off it.  The claimed behaviour (succeed
iff the department is assigned) is therefore never exhibited. -/
theorem create_student_non_superadmin_crashes (u : User)
    (student_in : StudentCreate) (db : DB)
    (h : u.role ≠ UserRole.SUPER_ADMIN) :
    create_student u student_in db = .error (.attributeError "role") := by
  unfold create_student
  rw [if_pos h]
  rfl

/-- Witness for C9: a concrete ADMIN assigned (in the link table) to
department 1, creating a student in department 1, still crashes. -/
theorem create_student_non_superadmin_crashes_witness :
    (User.mk 3 .ADMIN true [Department.mk 1 "D1"]).role ≠ UserRole.SUPER_ADMIN ∧
    get_user_departments 3
      { departments := [Department.mk 1 "D1"],
        user_departments := [UserDepartment.mk 3 1] } = [1] ∧
    create_student (User.mk 3 .ADMIN true [Department.mk 1 "D1"])
      (StudentCreate.mk "A" 1 .CHILDREN {})
      { departments := [Department.mk 1 "D1"],
        user_departments := [UserDepartment.mk 3 1] }
      = .error (.attributeError "role") :=
  ⟨by decide, rfl,
   create_student_non_superadmin_crashes (User.mk 3 .ADMIN true [Department.mk 1 "D1"])
     (StudentCreate.mk "A" 1 .CHILDREN {})
     { departments := [Department.mk 1 "D1"],
       user_departments := [UserDepartment.mk 3 1] } (by decide)⟩

/-- C10: `eligible_students` performs no department access check — its result
is the full list of students matching `(department_id, category)` and is
independent of which (authenticated, active) user calls it. -/
theorem eligible_students_ignores_caller (d : Nat) (c : StudentCategory)
    (u1 u2 : User) (db : DB) :
    eligible_students d c u1 db = eligible_students d c u2 db ∧
    eligible_students d c u1 db =
      db.students.filter (fun s => s.department_id == d && s.category == c) ∧
    ∀ s : Student, s ∈ eligible_students d c u1 db ↔
      (s ∈ db.students ∧ s.department_id = d ∧ s.category = c) := by
  refine ⟨rfl, rfl, ?_⟩
  intro s
  simp [eligible_students, List.mem_filter, and_assoc]

/-- Predicate form of the three optional query filters of
`list_attendance_sessions`: a session is selected when every supplied filter
matches it. -/
def matchesFilters (department_id : Option Nat) (category : Option StudentCategory)
    (type : Option ProgramType) (s : AttendanceSession) : Bool :=
  (match department_id with | some d => s.department_id == d | none => true) &&
  (match category with | some c => s.target_category == c | none => true) &&
  (match type with | some t => s.type == some t | none => true)

/-- C3 (counterexample): a MANAGER with no assigned departments at all —
empty loaded relationship and empty link table — calling list-sessions with
no department filter is handed the session of department 1, and an explicit
filter on the unassigned department 1 returns that session instead of being
rejected. -/
theorem list_sessions_not_scoped_counterexample :
    (User.mk 1 .MANAGER true []).role ≠ UserRole.SUPER_ADMIN ∧
    (User.mk 1 .MANAGER true []).departments = [] ∧
    get_user_departments 1
      { sessions := [AttendanceSession.mk 1 0 1 none .CHILDREN none none] } = [] ∧
    (list_attendance_sessions none none none (User.mk 1 .MANAGER true [])
        { sessions := [AttendanceSession.mk 1 0 1 none .CHILDREN none none] }).map
      AttendanceSession.department_id = [1] ∧
    (list_attendance_sessions (some 1) none none (User.mk 1 .MANAGER true [])
        { sessions := [AttendanceSession.mk 1 0 1 none .CHILDREN none none] }).map
      AttendanceSession.id = [1] := by
  decide

/-- C3 (amended): `list_attendance_sessions` applies no caller-based scoping:
for every caller it returns exactly the sessions matching the optional
department/category/type filters, independently of the caller's role or
assigned departments, and an out-of-set explicit department filter is served
rather than rejected. -/
theorem list_sessions_unrestricted (dep : Option Nat)
    (cat : Option StudentCategory) (ty : Option ProgramType) (u v : User)
    (db : DB) :
    list_attendance_sessions dep cat ty u db =
      db.sessions.filter (fun s => matchesFilters dep cat ty s) ∧
    list_attendance_sessions dep cat ty u db =
      list_attendance_sessions dep cat ty v db := by
  refine ⟨?_, rfl⟩
  cases dep <;> cases cat <;> cases ty <;>
    simp [list_attendance_sessions, matchesFilters, List.filter_filter,
      Bool.and_comm, Bool.and_assoc, Bool.and_left_comm]

/-- Helper for C7: with no caller-supplied overrides the record builder of
the manual-create path produces one ABSENT record per fetched student. -/
theorem buildManualRecords_no_overrides (sessionId : Nat) (nid : Nat)
    (students : List Student) :
    (buildManualRecords sessionId [] nid students).length = students.length ∧
    (buildManualRecords sessionId [] nid students).map
      AttendanceRecord.student_id = students.map Student.id ∧
    ∀ r ∈ buildManualRecords sessionId [] nid students,
      r.status = AttendanceStatus.ABSENT := by
  induction students generalizing nid with
  | nil => simp [buildManualRecords]
  | cons s rest ih =>
    obtain ⟨h1, h2, h3⟩ := ih (nid + 1)
    refine ⟨?_, ?_, ?_⟩
    · simp [buildManualRecords, h1]
    · simp [buildManualRecords, h2]
    · intro r hr
      simp only [buildManualRecords, List.reverse_nil, List.find?_nil,
        List.mem_cons] at hr
      rcases hr with hr | hr
      · rw [hr]
      · exact h3 r hr

/-- C7: a manual create-session call that passes the permission check, for an
existing department, with no per-student overrides, creates exactly one
record per student matching `(department_id, category)`, each with status
ABSENT, and appends exactly those records to the store. -/
theorem manual_session_all_absent (u : User) (data : AttendanceSessionCreate)
    (db : DB)
    (hperm : (check_department_permission u data.department_id).isOk = true)
    (hdept : (db.departments.find? (fun d => d.id == data.department_id)).isSome
      = true)
    (hrec : data.records = none) :
    ∃ sess recs db2,
      create_attendance_session u data db = .ok ((sess, recs), db2) ∧
      recs.length = (db.students.filter (fun s =>
        s.department_id == data.department_id &&
        s.category == data.category)).length ∧
      recs.map AttendanceRecord.student_id = (db.students.filter (fun s =>
        s.department_id == data.department_id &&
        s.category == data.category)).map Student.id ∧
      (∀ r ∈ recs, r.status = AttendanceStatus.ABSENT) ∧
      db2.records = db.records ++ recs := by
  cases hp : check_department_permission u data.department_id with
  | error e =>
    rw [hp] at hperm
    simp [Except.isOk, Except.toBool] at hperm
  | ok b =>
    cases hd : db.departments.find? (fun d => d.id == data.department_id) with
    | none =>
      rw [hd] at hdept
      simp at hdept
    | some dd =>
      obtain ⟨h1, h2, h3⟩ := buildManualRecords_no_overrides db.next_session_id
        db.next_record_id (db.students.filter (fun s =>
          s.department_id == data.department_id &&
          s.category == data.category))
      unfold create_attendance_session
      rw [hp, hd, hrec]
      exact ⟨_, _, _, rfl, h1, h2, h3, rfl⟩

/-- Witness for C7: a SUPER_ADMIN creating a CHILDREN session in department 1
with two matching students (and one non-matching ADULT) in store. -/
theorem manual_session_all_absent_witness :
    (check_department_permission (User.mk 1 .SUPER_ADMIN true [])
      (AttendanceSessionCreate.mk 0 1 .CHILDREN .REGULAR none).department_id).isOk
      = true ∧
    ((DB.departments
        { departments := [Department.mk 1 "D1"],
          students := [Student.mk 1 1 .CHILDREN, Student.mk 2 1 .CHILDREN,
            Student.mk 3 1 .ADULT] }).find?
      (fun d => d.id ==
        (AttendanceSessionCreate.mk 0 1 .CHILDREN .REGULAR none).department_id)).isSome
      = true ∧
    (AttendanceSessionCreate.mk 0 1 .CHILDREN .REGULAR none).records = none ∧
    (∃ sess recs db2,
      create_attendance_session (User.mk 1 .SUPER_ADMIN true [])
        (AttendanceSessionCreate.mk 0 1 .CHILDREN .REGULAR none)
        { departments := [Department.mk 1 "D1"],
          students := [Student.mk 1 1 .CHILDREN, Student.mk 2 1 .CHILDREN,
            Student.mk 3 1 .ADULT] } = .ok ((sess, recs), db2) ∧
      recs.length = ((DB.students
        { departments := [Department.mk 1 "D1"],
          students := [Student.mk 1 1 .CHILDREN, Student.mk 2 1 .CHILDREN,
            Student.mk 3 1 .ADULT] }).filter (fun s =>
        s.department_id ==
          (AttendanceSessionCreate.mk 0 1 .CHILDREN .REGULAR none).department_id &&
        s.category ==
          (AttendanceSessionCreate.mk 0 1 .CHILDREN .REGULAR none).category)).length ∧
      recs.map AttendanceRecord.student_id = ((DB.students
        { departments := [Department.mk 1 "D1"],
          students := [Student.mk 1 1 .CHILDREN, Student.mk 2 1 .CHILDREN,
            Student.mk 3 1 .ADULT] }).filter (fun s =>
        s.department_id ==
          (AttendanceSessionCreate.mk 0 1 .CHILDREN .REGULAR none).department_id &&
        s.category ==
          (AttendanceSessionCreate.mk 0 1 .CHILDREN .REGULAR none).category)).map
          Student.id ∧
      (∀ r ∈ recs, r.status = AttendanceStatus.ABSENT) ∧
      db2.records = (DB.records
        { departments := [Department.mk 1 "D1"],
          students := [Student.mk 1 1 .CHILDREN, Student.mk 2 1 .CHILDREN,
            Student.mk 3 1 .ADULT] }) ++ recs) :=
  ⟨rfl, rfl, rfl,
   manual_session_all_absent (User.mk 1 .SUPER_ADMIN true [])
     (AttendanceSessionCreate.mk 0 1 .CHILDREN .REGULAR none)
     { departments := [Department.mk 1 "D1"],
       students := [Student.mk 1 1 .CHILDREN, Student.mk 2 1 .CHILDREN,
         Student.mk 3 1 .ADULT] } rfl rfl rfl⟩

/-- The record-table invariant claimed by the spec: at most one stored record
per `(session_id, student_id)` pair. -/
def atMostOnePerPair (records : List AttendanceRecord) : Prop :=
  ∀ sid st, (records.filter (pairMatches sid st)).length ≤ 1

/-- Updating status and remarks in place never changes which
`(session, student)` pair a row belongs to. -/
theorem updRec_pairMatches (exid : Nat) (v : AttendanceStatus)
    (n : Option String) (a b : Nat) (r : AttendanceRecord) :
    pairMatches a b (updRec exid v n r) = pairMatches a b r := by
  unfold updRec pairMatches
  split <;> rfl

/-- Filtering a pair out of an in-place-updated table is the same as updating
the filtered rows. -/
theorem filter_map_updRec (exid : Nat) (v : AttendanceStatus)
    (n : Option String) (a b : Nat) (l : List AttendanceRecord) :
    (l.map (updRec exid v n)).filter (pairMatches a b)
      = (l.filter (pairMatches a b)).map (updRec exid v n) := by
  induction l with
  | nil => rfl
  | cons x tl ih =>
    simp only [List.map_cons, List.filter_cons, updRec_pairMatches]
    cases hm : pairMatches a b x <;> simp [hm, ih]

/-- A `scalar_one_or_none` call that reports no row means the filtered table
is empty. -/
theorem scalar_one_or_none_none {α : Type} {l : List α}
    (h : scalar_one_or_none l = .ok none) : l = [] := by
  cases l with
  | nil => rfl
  | cons a tl => cases tl <;> simp [scalar_one_or_none] at h

/-- Appending a row for a pair that has no stored row yet keeps the
at-most-one invariant. -/
theorem atMostOnePerPair_append_new (l : List AttendanceRecord)
    (new : AttendanceRecord)
    (hnil : l.filter (pairMatches new.session_id new.student_id) = [])
    (hinv : atMostOnePerPair l) : atMostOnePerPair (l ++ [new]) := by
  intro a b
  rw [List.filter_append]
  by_cases hm : pairMatches a b new = true
  · have hab : new.session_id = a ∧ new.student_id = b := by
      simpa [pairMatches, Bool.and_eq_true, beq_iff_eq] using hm
    obtain ⟨ha, hb⟩ := hab
    subst ha hb
    rw [hnil]
    simp [List.filter, hm]
  · have hsingle : List.filter (pairMatches a b) [new] = [] := by
      simp [List.filter, hm]
    rw [hsingle, List.append_nil]
    exact hinv a b

/-- A successful collect call preserves the at-most-one-record-per-pair
invariant: the update branch rewrites a row in place, the insert branch only
fires when the pair has no row. -/
theorem collect_preserves_pair_bound (u : User) (dep sid : Nat)
    (rec : AttendanceRecordCreate) (db : DB) (out : AttendanceRecord)
    (db2 : DB)
    (h : collect_attendance u dep sid rec db = .ok (out, db2))
    (hinv : atMostOnePerPair db.records) : atMostOnePerPair db2.records := by
  unfold collect_attendance at h
  cases hg : require_manager_department_access dep u db with
  | error e => rw [hg] at h; exact absurd h (by simp)
  | ok g =>
    rw [hg] at h
    cases hs : scalar_one_or_none (db.sessions.filter (fun s => s.id == sid)) with
    | error e => rw [hs] at h; exact absurd h (by simp)
    | ok os =>
      rw [hs] at h
      cases os with
      | none => exact absurd h (by simp)
      | some s0 =>
        cases he : scalar_one_or_none (db.records.filter
            (pairMatches sid rec.student_id)) with
        | error e => rw [he] at h; exact absurd h (by simp)
        | ok oe =>
          rw [he] at h
          cases oe with
          | some ex =>
            simp only [Except.ok.injEq, Prod.mk.injEq] at h
            obtain ⟨hout, hdb2⟩ := h
            subst hdb2
            intro a b
            show ((db.records.map (updRec ex.id _ rec.notes)).filter
              (pairMatches a b)).length ≤ 1
            rw [filter_map_updRec, List.length_map]
            exact hinv a b
          | none =>
            simp only [Except.ok.injEq, Prod.mk.injEq] at h
            obtain ⟨hout, hdb2⟩ := h
            subst hdb2
            exact atMostOnePerPair_append_new db.records _
              (scalar_one_or_none_none he) hinv

/-- State reached by one collect request: the updated store on success, the
rolled-back (unchanged) store on failure. -/
def applyCollect (db : DB) (c : User × Nat × Nat × AttendanceRecordCreate) :
    DB :=
  match collect_attendance c.1 c.2.1 c.2.2.1 c.2.2.2 db with
  | .ok (_, db2) => db2
  | .error _ => db

/-- C5 (amended): any sequence of collect calls preserves the
at-most-one-record-per-`(session, student)` invariant; `add_record` is the
operation that breaks it (see the counterexample). -/
theorem collect_sequence_keeps_at_most_one_record
    (calls : List (User × Nat × Nat × AttendanceRecordCreate)) (db : DB)
    (hinv : atMostOnePerPair db.records) :
    atMostOnePerPair ((calls.foldl applyCollect db).records) := by
  induction calls generalizing db with
  | nil => exact hinv
  | cons c rest ih =>
    show atMostOnePerPair ((rest.foldl applyCollect (applyCollect db c)).records)
    refine ih (applyCollect db c) ?_
    unfold applyCollect
    cases hc : collect_attendance c.1 c.2.1 c.2.2.1 c.2.2.2 db with
    | error e => exact hinv
    | ok p =>
      obtain ⟨o, db2⟩ := p
      exact collect_preserves_pair_bound c.1 c.2.1 c.2.2.1 c.2.2.2 db o db2 hc
        hinv

/-- Store for the C5 scenario: one session (id 1) in department 1, no
records. -/
def c5db0 : DB :=
  { sessions := [AttendanceSession.mk 1 0 1 none .CHILDREN none none] }

/-- State after one `add_record` call for student 5 on session 1 by a
SUPER_ADMIN. -/
def c5afterOne : DB :=
  match add_record (User.mk 9 .SUPER_ADMIN true []) 1 1
      (AttendanceRecordCreate.mk 5 (some true) none) c5db0 with
  | .ok (_, db2) => db2
  | .error _ => c5db0

/-- State after a second, identical `add_record` call. -/
def c5afterTwo : DB :=
  match add_record (User.mk 9 .SUPER_ADMIN true []) 1 1
      (AttendanceRecordCreate.mk 5 (some true) none) c5afterOne with
  | .ok (_, db2) => db2
  | .error _ => c5afterOne

/-- C5 (counterexample): two successful `add_record` calls for the same
`(session 1, student 5)` pair leave two stored records for that pair —
`add_record` inserts unconditionally, so the claimed invariant does not
survive add-record calls. -/
theorem add_record_breaks_invariant_counterexample :
    (add_record (User.mk 9 .SUPER_ADMIN true []) 1 1
      (AttendanceRecordCreate.mk 5 (some true) none) c5db0).isOk = true ∧
    (add_record (User.mk 9 .SUPER_ADMIN true []) 1 1
      (AttendanceRecordCreate.mk 5 (some true) none) c5afterOne).isOk = true ∧
    (c5afterTwo.records.filter (pairMatches 1 5)).length = 2 ∧
    ¬ atMostOnePerPair c5afterTwo.records :=
  ⟨rfl, rfl, rfl, fun hinv => absurd (hinv 1 5) (by decide)⟩

/-- Witness for the amended C5: starting from the record-free store, a
two-call collect sequence (both for student 5 of session 1) keeps the
invariant. -/
theorem collect_sequence_keeps_at_most_one_record_witness :
    atMostOnePerPair c5db0.records ∧
    atMostOnePerPair
      (([(User.mk 9 .SUPER_ADMIN true [], 1, 1,
           AttendanceRecordCreate.mk 5 (some true) none),
         (User.mk 9 .SUPER_ADMIN true [], 1, 1,
           AttendanceRecordCreate.mk 5 (some false) none)].foldl
        applyCollect c5db0).records) :=
  ⟨fun _ _ => by simp [c5db0],
   collect_sequence_keeps_at_most_one_record _ c5db0 (fun _ _ => by simp [c5db0])⟩

/-- Equation for the insert branch of collect: the gate passes, the session
is found, and the pair has no stored row yet. -/
theorem collect_ok_insert (u : User) (dep sid : Nat)
    (rec : AttendanceRecordCreate) (db : DB) (s0 : AttendanceSession)
    (hg : require_manager_department_access dep u db = .ok ())
    (hs : scalar_one_or_none (db.sessions.filter (fun s => s.id == sid))
      = .ok (some s0))
    (hnil : db.records.filter (pairMatches sid rec.student_id) = []) :
    collect_attendance u dep sid rec db =
      .ok (AttendanceRecord.mk db.next_record_id sid rec.student_id
             (if truthy rec.present then .PRESENT else .ABSENT) rec.notes,
           { db with
             records := db.records ++
               [AttendanceRecord.mk db.next_record_id sid rec.student_id
                 (if truthy rec.present then .PRESENT else .ABSENT) rec.notes],
             next_record_id := db.next_record_id + 1 }) := by
  unfold collect_attendance
  rw [hg, hs, hnil]
  rfl

/-- Equation for the update branch of collect: the gate passes, the session
is found, and the pair already has exactly one stored row. -/
theorem collect_ok_update (u : User) (dep sid : Nat)
    (rec : AttendanceRecordCreate) (db : DB) (s0 : AttendanceSession)
    (ex : AttendanceRecord)
    (hg : require_manager_department_access dep u db = .ok ())
    (hs : scalar_one_or_none (db.sessions.filter (fun s => s.id == sid))
      = .ok (some s0))
    (hex : db.records.filter (pairMatches sid rec.student_id) = [ex]) :
    collect_attendance u dep sid rec db =
      .ok ({ ex with
             status := (if truthy rec.present then .PRESENT else .ABSENT),
             remarks := rec.notes },
           { db with
             records := db.records.map
               (updRec ex.id (if truthy rec.present then .PRESENT else .ABSENT)
                 rec.notes) }) := by
  unfold collect_attendance
  rw [hg, hs, hex]
  rfl

/-- Rows whose primary key differs from the updated one are untouched by the
in-place update. -/
theorem map_updRec_fresh (l : List AttendanceRecord) (exid : Nat)
    (v : AttendanceStatus) (n : Option String)
    (h : ∀ r ∈ l, r.id ≠ exid) : l.map (updRec exid v n) = l := by
  induction l with
  | nil => rfl
  | cons x tl ih =>
    have hx : x.id ≠ exid := h x (List.mem_cons_self x tl)
    simp only [List.map_cons]
    rw [ih (fun r hr => h r (List.mem_cons_of_mem x hr))]
    unfold updRec
    simp [hx]

/-- The in-place update is idempotent on each row. -/
theorem updRec_updRec (exid : Nat) (v : AttendanceStatus) (n : Option String)
    (r : AttendanceRecord) :
    updRec exid v n (updRec exid v n r) = updRec exid v n r := by
  unfold updRec
  by_cases hid : r.id == exid
  · simp [hid]
  · simp [hid]

/-- The manager gate only reads the `user_departments` link table of the
store, so any store with the same link table answers it identically. -/
theorem require_gate_only_reads_links (dep : Nat) (u : User) (db db2 : DB)
    (h : db2.user_departments = db.user_departments) :
    require_manager_department_access dep u db2 =
      require_manager_department_access dep u db := by
  unfold require_manager_department_access check_admin_department_access
    get_user_departments
  rw [h]

/-- C6: on a store holding session `sid` and at most one record for
`(sid, st)` (with a sound autoincrement counter), two collect calls for
student `st` — by any caller the manager gate admits — both succeed and leave
exactly one stored record for `(sid, st)`, whose status and notes are the
second call's values; and when the two calls carry the same values the second
call does not change the store at all. -/
theorem collect_twice_latest_wins (u : User) (dep sid st : Nat)
    (p1 p2 : Option Bool) (n1 n2 : Option String) (db : DB)
    (s0 : AttendanceSession)
    (hg : require_manager_department_access dep u db = .ok ())
    (hs : scalar_one_or_none (db.sessions.filter (fun s => s.id == sid))
      = .ok (some s0))
    (hone : (db.records.filter (pairMatches sid st)).length ≤ 1)
    (hfresh : ∀ r ∈ db.records, r.id < db.next_record_id) :
    ∃ out1 db1 out2 db2,
      collect_attendance u dep sid (AttendanceRecordCreate.mk st p1 n1) db
        = .ok (out1, db1) ∧
      collect_attendance u dep sid (AttendanceRecordCreate.mk st p2 n2) db1
        = .ok (out2, db2) ∧
      (db2.records.filter (pairMatches sid st)).map
          (fun r => (r.status, r.remarks))
        = [((if truthy p2 then AttendanceStatus.PRESENT
              else AttendanceStatus.ABSENT), n2)] ∧
      (db2.records.filter (pairMatches sid st)).length = 1 ∧
      (p1 = p2 → n1 = n2 → db2 = db1) := by
  have hsplit : db.records.filter (pairMatches sid st) = [] ∨
      ∃ ex, db.records.filter (pairMatches sid st) = [ex] := by
    cases hl : db.records.filter (pairMatches sid st) with
    | nil => exact Or.inl rfl
    | cons a tl =>
      cases tl with
      | nil => exact Or.inr ⟨a, rfl⟩
      | cons b tl2 =>
        exfalso
        rw [hl] at hone
        simp [List.length_cons] at hone
  rcases hsplit with hnil | ⟨ex, hex⟩
  · -- the first call inserts the pair's first record, the second updates it
    have h1 : collect_attendance u dep sid (AttendanceRecordCreate.mk st p1 n1) db
        = .ok (AttendanceRecord.mk db.next_record_id sid st
                 (if truthy p1 then AttendanceStatus.PRESENT
                  else AttendanceStatus.ABSENT) n1,
               { db with
                 records := db.records ++
                   [AttendanceRecord.mk db.next_record_id sid st
                     (if truthy p1 then AttendanceStatus.PRESENT
                      else AttendanceStatus.ABSENT) n1],
                 next_record_id := db.next_record_id + 1 }) :=
      collect_ok_insert u dep sid (AttendanceRecordCreate.mk st p1 n1) db s0
        hg hs hnil
    have hex1 : (db.records ++
        [AttendanceRecord.mk db.next_record_id sid st
          (if truthy p1 then AttendanceStatus.PRESENT
           else AttendanceStatus.ABSENT) n1]).filter (pairMatches sid st)
        = [AttendanceRecord.mk db.next_record_id sid st
            (if truthy p1 then AttendanceStatus.PRESENT
             else AttendanceStatus.ABSENT) n1] := by
      rw [List.filter_append, hnil]
      simp [pairMatches]
    have hg1 : require_manager_department_access dep u
        { db with
          records := db.records ++
            [AttendanceRecord.mk db.next_record_id sid st
              (if truthy p1 then AttendanceStatus.PRESENT
               else AttendanceStatus.ABSENT) n1],
          next_record_id := db.next_record_id + 1 } = .ok () := by
      refine Eq.trans (require_gate_only_reads_links dep u db _ ?_) hg
      rfl
    have h2 : collect_attendance u dep sid (AttendanceRecordCreate.mk st p2 n2)
        { db with
          records := db.records ++
            [AttendanceRecord.mk db.next_record_id sid st
              (if truthy p1 then AttendanceStatus.PRESENT
               else AttendanceStatus.ABSENT) n1],
          next_record_id := db.next_record_id + 1 }
        = .ok (AttendanceRecord.mk db.next_record_id sid st
                 (if truthy p2 then AttendanceStatus.PRESENT
                  else AttendanceStatus.ABSENT) n2,
               { db with
                 records := (db.records ++
                   [AttendanceRecord.mk db.next_record_id sid st
                     (if truthy p1 then AttendanceStatus.PRESENT
                      else AttendanceStatus.ABSENT) n1]).map
                   (updRec db.next_record_id
                     (if truthy p2 then AttendanceStatus.PRESENT
                      else AttendanceStatus.ABSENT) n2),
                 next_record_id := db.next_record_id + 1 }) :=
      collect_ok_update u dep sid (AttendanceRecordCreate.mk st p2 n2) _ s0
        (AttendanceRecord.mk db.next_record_id sid st
          (if truthy p1 then AttendanceStatus.PRESENT
           else AttendanceStatus.ABSENT) n1) hg1 hs hex1
    refine ⟨_, _, _, _, h1, h2, ?_, ?_, ?_⟩
    · rw [filter_map_updRec, hex1]
      simp [updRec]
    · rw [filter_map_updRec, hex1]
      simp
    · intro hp hn
      subst hp
      subst hn
      have hrecs : (db.records ++
          [AttendanceRecord.mk db.next_record_id sid st
            (if truthy p1 then AttendanceStatus.PRESENT
             else AttendanceStatus.ABSENT) n1]).map
          (updRec db.next_record_id
            (if truthy p1 then AttendanceStatus.PRESENT
             else AttendanceStatus.ABSENT) n1)
          = db.records ++
            [AttendanceRecord.mk db.next_record_id sid st
              (if truthy p1 then AttendanceStatus.PRESENT
               else AttendanceStatus.ABSENT) n1] := by
        rw [List.map_append]
        rw [map_updRec_fresh db.records _ _ _
          (fun r hr => Nat.ne_of_lt (hfresh r hr))]
        simp [updRec]
      rw [hrecs]
  · -- both calls update the pair's single record in place
    have h1 : collect_attendance u dep sid (AttendanceRecordCreate.mk st p1 n1) db
        = .ok ({ ex with
                 status := (if truthy p1 then AttendanceStatus.PRESENT
                   else AttendanceStatus.ABSENT),
                 remarks := n1 },
               { db with
                 records := db.records.map (updRec ex.id
                   (if truthy p1 then AttendanceStatus.PRESENT
                    else AttendanceStatus.ABSENT) n1) }) :=
      collect_ok_update u dep sid (AttendanceRecordCreate.mk st p1 n1) db s0
        ex hg hs hex
    have hex1 : (db.records.map (updRec ex.id
        (if truthy p1 then AttendanceStatus.PRESENT
         else AttendanceStatus.ABSENT) n1)).filter (pairMatches sid st)
        = [{ ex with
             status := (if truthy p1 then AttendanceStatus.PRESENT
               else AttendanceStatus.ABSENT),
             remarks := n1 }] := by
      rw [filter_map_updRec, hex]
      simp [updRec]
    have hg1 : require_manager_department_access dep u
        { db with
          records := db.records.map (updRec ex.id
            (if truthy p1 then AttendanceStatus.PRESENT
             else AttendanceStatus.ABSENT) n1) } = .ok () := by
      refine Eq.trans (require_gate_only_reads_links dep u db _ ?_) hg
      rfl
    have h2 : collect_attendance u dep sid (AttendanceRecordCreate.mk st p2 n2)
        { db with
          records := db.records.map (updRec ex.id
            (if truthy p1 then AttendanceStatus.PRESENT
             else AttendanceStatus.ABSENT) n1) }
        = .ok ({ ex with
                 status := (if truthy p2 then AttendanceStatus.PRESENT
                   else AttendanceStatus.ABSENT),
                 remarks := n2 },
               { db with
                 records := (db.records.map (updRec ex.id
                   (if truthy p1 then AttendanceStatus.PRESENT
                    else AttendanceStatus.ABSENT) n1)).map
                   (updRec ex.id
                     (if truthy p2 then AttendanceStatus.PRESENT
                      else AttendanceStatus.ABSENT) n2) }) :=
      collect_ok_update u dep sid (AttendanceRecordCreate.mk st p2 n2) _ s0
        ({ ex with
           status := (if truthy p1 then AttendanceStatus.PRESENT
             else AttendanceStatus.ABSENT),
           remarks := n1 }) hg1 hs hex1
    refine ⟨_, _, _, _, h1, h2, ?_, ?_, ?_⟩
    · rw [filter_map_updRec, hex1]
      simp [updRec]
    · rw [filter_map_updRec, hex1]
      simp
    · intro hp hn
      subst hp
      subst hn
      have hrecs : (db.records.map (updRec ex.id
          (if truthy p1 then AttendanceStatus.PRESENT
           else AttendanceStatus.ABSENT) n1)).map
          (updRec ex.id
            (if truthy p1 then AttendanceStatus.PRESENT
             else AttendanceStatus.ABSENT) n1)
          = db.records.map (updRec ex.id
            (if truthy p1 then AttendanceStatus.PRESENT
             else AttendanceStatus.ABSENT) n1) := by
        rw [List.map_map]
        exact List.map_congr_left (fun r _ => updRec_updRec ex.id _ n1 r)
      rw [hrecs]

/-- Store for the C6 witness: one session (id 1) in department 1, no
records. -/
def c6db : DB :=
  { sessions := [AttendanceSession.mk 1 0 1 none .CHILDREN none none] }

/-- Witness for C6: a SUPER_ADMIN collects student 5 of session 1 twice, first
present then absent; both calls succeed, one ABSENT record remains. -/
theorem collect_twice_latest_wins_witness :
    require_manager_department_access 1 (User.mk 9 .SUPER_ADMIN true []) c6db
      = .ok () ∧
    scalar_one_or_none (c6db.sessions.filter (fun s => s.id == 1))
      = .ok (some (AttendanceSession.mk 1 0 1 none .CHILDREN none none)) ∧
    (c6db.records.filter (pairMatches 1 5)).length ≤ 1 ∧
    (∀ r ∈ c6db.records, r.id < c6db.next_record_id) ∧
    (∃ out1 db1 out2 db2,
      collect_attendance (User.mk 9 .SUPER_ADMIN true []) 1 1
        (AttendanceRecordCreate.mk 5 (some true) none) c6db = .ok (out1, db1) ∧
      collect_attendance (User.mk 9 .SUPER_ADMIN true []) 1 1
        (AttendanceRecordCreate.mk 5 (some false) none) db1 = .ok (out2, db2) ∧
      (db2.records.filter (pairMatches 1 5)).map
          (fun r => (r.status, r.remarks))
        = [((if truthy (some false) then AttendanceStatus.PRESENT
              else AttendanceStatus.ABSENT), none)] ∧
      (db2.records.filter (pairMatches 1 5)).length = 1 ∧
      (some true = some false → (none : Option String) = none →
        db2 = db1)) :=
  ⟨rfl, rfl, by decide, by simp [c6db],
   collect_twice_latest_wins (User.mk 9 .SUPER_ADMIN true []) 1 1 5
     (some true) (some false) none none c6db
     (AttendanceSession.mk 1 0 1 none .CHILDREN none none)
     rfl rfl (by decide) (by simp [c6db])⟩

end FreForm
